import Mathlib

/-!
Shallow embedding of the core of `sfs-node` (src/src/index.ts): the
Simple File Storage save/dedup/cleanup pipeline, the ID/URL codec and the
delete-by-hash operation, together with proofs of the specification's
claims about them.

Modelling conventions:
- JS strings are Lean `String`; JS `string.replace(pat, repl)` (string
  pattern, which replaces only the first occurrence) is `jsReplaceFirst`.
- The filesystem directory used by `saveFile` is an association list from
  path to file size (`Disk`); `fs.statSync(p).size` is a lookup,
  `fs.existsSync` is lookup-isSome, `fs.unlinkSync` removes the entry,
  `file.mv(p)` inserts an entry.
- External collaborators injected through the config (`getFileByHash`,
  `createFile`, `uid`, the hash function, `decodeURI`, `fileTypeFromBuffer`
  and `dotExtensionToCategotry` from external packages, `Date.now`) are
  fields of `SfsEnv`: arbitrary functions/values the theorems quantify over.
- A JS object literal with spreads (the `fileData` record of `saveFile`)
  is an association list `List (String × Val)` where a later binding for a
  key shadows an earlier one; `jsObjGet` is property lookup (last wins).
- A JS value that is either a string or a number (`sfsFileId`) is `Val`.
-/

namespace Sfs

/-- JS value that is a string or a number (models `sfsFileId` and the
values of `additionalData` entries). -/
inductive Val where
  | str : String → Val
  | num : Nat → Val
deriving DecidableEq, Repr

/-- String coercion applied by JS when an id is concatenated into a URL. -/
def valToString : Val → String
  | .str s => s
  | .num n => toString n

/-- JS truthiness test restricted to `Val`: the empty string and 0 are falsy. -/
def valFalsy : Val → Bool
  | .str s => s == ""
  | .num n => n == 0

/-- The persisted metadata record `sfsFile` of src/src/index.ts (core fields;
the open-ended extra properties live only in the record literal passed to
`createFile`, modelled separately as an association list). -/
structure sfsFile where
  id : Val
  name : String
  extension : String
  hash : String
  size : Nat
  type : String
  last_modified : Nat
  path : String
  url : Option String
deriving DecidableEq, Repr

/-- JS `mask.endsWith("/")`. -/
def endsWithSlash (m : String) : Bool := m.data.getLast? == some '/'

/-- Replace the first occurrence of `pat` in `s` by `repl` (list form).
This is the semantics of JS `String.prototype.replace` with a string
pattern: only the leftmost occurrence is replaced; if `pat` does not
occur, the string is returned unchanged. -/
def replaceFirstL (s pat repl : List Char) : List Char :=
  if pat.isPrefixOf s then repl ++ s.drop pat.length
  else
    match s with
    | [] => []
    | c :: rest => c :: replaceFirstL rest pat repl

/-- JS `s.replace(pat, repl)` for a string pattern. -/
def jsReplaceFirst (s pat repl : String) : String :=
  String.mk (replaceFirstL s.data pat.data repl.data)

/-- Function `urlToId` of src/src/index.ts (line 126): strips the mask (with its
separator) from the front of the URL using JS `replace`. -/
def urlToId (mask url : String) : String :=
  if endsWithSlash mask then jsReplaceFirst url mask ""
  else jsReplaceFirst url (mask ++ "/") ""

/-- Function `idToUrl` of src/src/index.ts (line 136): prepends the mask, inserting
exactly one separator. -/
def idToUrl (mask : String) (id : String) : String :=
  (if endsWithSlash mask then mask else mask ++ "/") ++ id

/-- JS `f.split(".")[0]`: the characters of `f` before the first dot
(the whole string when there is no dot). -/
def stem (s : String) : String := String.mk (s.data.takeWhile (fun c => c != '.'))

/-- Outcome of `deleteFileByHash`: the settled promise and the directory
contents of the storage root afterwards. -/
structure DeleteResult where
  result : Except String Unit
  dir : List String
deriving Repr

/-- Function `deleteFileByHash` of src/src/index.ts (lines 270-282). The storage
root is modelled by its directory listing `dir`; `fs.readdirSync` returns
it, `files.find` is `List.find?`, `fs.unlinkSync` removes the entry. When
no entry matches, the thrown error carries the not-found message. -/
def deleteFileByHash (publicFolder : String) (dir : List String) (hash : String) :
    DeleteResult :=
  match dir.find? (fun f => stem f == hash) with
  | none =>
      { result := .error ("File with hash " ++ hash ++ " not found in " ++ publicFolder),
        dir := dir }
  | some fileToDelete => { result := .ok (), dir := dir.erase fileToDelete }

/-- Filesystem model for `saveFile`: the files under the storage root as an
association list from absolute path to byte size. -/
abbrev Disk := List (String × Nat)

/-- Lookup modelling `fs.statSync(p).size`, as an Option (statSync throws when absent). -/
def diskLookup (d : Disk) (p : String) : Option Nat :=
  (d.find? (fun e => e.1 == p)).map (fun e => e.2)

/-- Write modelling `file.mv(p)`: the uploaded bytes come to rest at `p`. -/
def diskWrite (d : Disk) (p : String) (sz : Nat) : Disk :=
  (p, sz) :: d.filter (fun e => e.1 != p)

/-- Removal modelling `fs.unlinkSync(p)`. -/
def diskErase (d : Disk) (p : String) : Disk := d.filter (fun e => e.1 != p)

/-- Property lookup on a JS object literal modelled as a binding list:
a later binding for the same key shadows an earlier one, as with object
spread syntax. -/
def jsObjGet (obj : List (String × Val)) (k : String) : Option Val :=
  (obj.reverse.find? (fun e => e.1 == k)).map (fun e => e.2)

/-- Node `path.extname` on a character list: the suffix of the basename
from its last dot, empty when there is no dot or the dot is the
basename's first character (hidden files). -/
def extnameL (cs : List Char) : List Char :=
  let b := (cs.reverse.takeWhile (fun c => c != '/')).reverse
  match b.reverse.dropWhile (fun c => c != '.') with
  | [] => []
  | _ :: rest =>
      if rest.isEmpty then []
      else '.' :: (b.reverse.takeWhile (fun c => c != '.')).reverse

/-- Node `path.extname(name)` (line 201 of src/src/index.ts). -/
def extname (s : String) : String := String.mk (extnameL s.data)

/-- Node `path.join(a, b)` for the shapes used here: one separator between
the storage root and the filename. -/
def pathJoin (a b : String) : String :=
  if endsWithSlash a then a ++ b else a ++ "/" ++ b

/-- The injected configuration and external collaborators of
`initFunctions` as far as `saveFile` observes them: config fields, the
metadata-store callbacks, and the external pure functions (`sha256`,
`decodeURI`, `fileTypeFromBuffer`, `dotExtensionToCategotry`, `Date.now`,
`uid`) fixed for the call under consideration. -/
structure SfsEnv where
  publicFolder : String
  mask : String
  allowDuplicates : Bool
  uidVal : Val
  nowTime : Nat
  hashFn : List Nat → String
  decodeURIFn : String → String
  sniffExt : List Nat → Option String
  extCategory : String → String
  getFileByHash : String → Option sfsFile
  createFile : List (String × Val) → Except Unit sfsFile

/-- The uploaded file as `saveFile` reads it: declared name and raw bytes. -/
structure UploadedFile where
  name : String
  data : List Nat

/-- The optional second argument of `saveFile`. -/
structure SaveOptions where
  filePath : Option String
  id : Option Val
  additionalData : List (String × Val)

/-- Line 193, `options?.filePath || "/"`: an absent or empty (falsy)
logical path becomes the root marker. -/
def defaultFilePath (o : Option String) : String :=
  match o with
  | some s => if s == "" then "/" else s
  | none => "/"

/-- Line 194, `options?.id || uid()`: an absent or falsy caller id is
replaced by a freshly generated uid. -/
def defaultId (o : Option Val) (uidVal : Val) : Val :=
  match o with
  | some v => if valFalsy v then uidVal else v
  | none => uidVal

/-- Line 225, `fileInfo?.size || fs.statSync(constPath).size`: a present
truthy (nonzero) record size short-circuits; otherwise the disk is
consulted (`none` models statSync throwing on a missing file). The Bool
records whether statSync was invoked. -/
def jsOrSize (fromInfo : Option Nat) (d : Disk) (p : String) : Option (Nat × Bool) :=
  match fromInfo with
  | some n =>
      if n != 0 then some (n, false)
      else (diskLookup d p).map (fun sz => (sz, true))
  | none => (diskLookup d p).map (fun sz => (sz, true))

/-- Outcome of one `saveFile` call: the settled promise (`.error` for a
rejection, `.ok none` for resolving with `undefined`), the disk afterwards,
whether `file.mv` and `fs.statSync` ran, and the record passed to
`createFile` (`none` when `createFile` was not invoked). -/
structure SaveResult where
  result : Except String (Option sfsFile)
  disk : Disk
  mvCalled : Bool
  statCalled : Bool
  created : Option (List (String × Val))
deriving Repr

/-- Function `saveFile` of src/src/index.ts (lines 183-269), embedded over the
`Disk` filesystem model and the `SfsEnv` collaborators. -/
def saveFile (env : SfsEnv) (disk : Disk) (file : UploadedFile) (opts : SaveOptions) :
    SaveResult :=
  -- Set default values (lines 193-194)
  let filePath := defaultFilePath opts.filePath
  let id := defaultId opts.id env.uidVal
  -- decoded name and content hash (lines 197-198)
  let name := env.decodeURIFn file.name
  let hash := env.hashFn file.data
  -- extension from the name, else sniffed from the buffer (lines 200-209)
  let extensionFromName := extname name
  let extension :=
    if extensionFromName != "" then extensionFromName
    else
      match env.sniffExt file.data with
      | some e => "." ++ e
      | none => ""
  -- filename is hash + extension to dedup storage (line 211)
  let constPath := pathJoin env.publicFolder (hash ++ extension)
  -- metadata lookup by hash (line 212)
  let fileInfo := env.getFileByHash hash
  -- physical write happens only when the content is new (lines 215-222)
  let disk1 :=
    match fileInfo with
    | some _ => disk
    | none => diskWrite disk constPath file.data.length
  let mvCalled := fileInfo.isNone
  -- metadata-write decision (line 224)
  if fileInfo.isNone ||
      (match fileInfo with | some fi => filePath != fi.path | none => true) ||
      env.allowDuplicates then
    match jsOrSize (fileInfo.map sfsFile.size) disk1 constPath with
    | none =>
        -- statSync threw; the outer catch rethrows (lines 265-268)
        { result := .error "Upload error", disk := disk1, mvCalled := mvCalled,
          statCalled := true, created := none }
    | some (size, statCalled) =>
        -- type: fileInfo?.type || dotExtensionToCategotry(extension) (line 226)
        let type :=
          match fileInfo with
          | some fi => if fi.type != "" then fi.type else env.extCategory extension
          | none => env.extCategory extension
        -- the record literal handed to createFile (lines 228-239)
        let fileData : List (String × Val) :=
          [("id", id), ("name", .str name), ("extension", .str extension),
           ("hash", .str hash), ("size", .num size), ("type", .str type),
           ("last_modified", .num env.nowTime), ("path", .str filePath),
           ("publishedAt", .num env.nowTime)] ++ opts.additionalData
        match env.createFile fileData with
        | .ok mutationResult =>
            -- decorate with the URL and return (lines 242-244)
            { result := .ok (some { mutationResult with
                url := some (idToUrl env.mask (valToString mutationResult.id)) }),
              disk := disk1, mvCalled := mvCalled, statCalled := statCalled,
              created := some fileData }
        | .error _ =>
            -- cleanup of the just-written file (lines 246-254); the caught
            -- createError is not rethrown, so the promise resolves undefined
            let disk2 :=
              if fileInfo.isNone && (diskLookup disk1 constPath).isSome then
                diskErase disk1 constPath
              else disk1
            { result := .ok none, disk := disk2, mvCalled := mvCalled,
              statCalled := statCalled, created := some fileData }
  else
    -- identical hash at the identical logical path, duplicates disallowed:
    -- return the existing record decorated with its URL (lines 259-263)
    match fileInfo with
    | some fi =>
        { result := .ok (some { fi with
            url := some (idToUrl env.mask (valToString fi.id)) }),
          disk := disk1, mvCalled := mvCalled, statCalled := false,
          created := none }
    | none =>
        -- unreachable: the decision condition holds whenever fileInfo is none
        { result := .error "Upload error", disk := disk1, mvCalled := mvCalled,
          statCalled := false, created := none }

/-! Concrete fixtures used by the closed witnesses and counterexamples. -/

/-- A concrete upload: declared name `a.txt`, three bytes. -/
def file0 : UploadedFile := { name := "a.txt", data := [1, 2, 3] }

/-- Empty options: no logical path, no id, no additional data. -/
def opts0 : SaveOptions := { filePath := none, id := none, additionalData := [] }

/-- A concrete pre-existing metadata record for hash `H` at logical path `/`. -/
def fi0 : sfsFile :=
  { id := .str "ID0", name := "a.txt", extension := ".txt", hash := "H",
    size := 5, type := "document", last_modified := 7, path := "/", url := none }

/-- A concrete environment: the store knows hash `H` as `fi0`, every upload
hashes to `H`, and `createFile` succeeds. -/
def baseEnv : SfsEnv :=
  { publicFolder := "pub", mask := "https://cdn.x/files", allowDuplicates := false,
    uidVal := .str "UID", nowTime := 100,
    hashFn := fun _ => "H", decodeURIFn := fun s => s,
    sniffExt := fun _ => none, extCategory := fun _ => "document",
    getFileByHash := fun h => if h == "H" then some fi0 else none,
    createFile := fun _ => .ok fi0 }

/-- Environment `baseEnv` with a `createFile` that always rejects. -/
def failEnv : SfsEnv := { baseEnv with createFile := fun _ => .error () }

/-- Environment `baseEnv` with an empty metadata store (every content is novel) and a
rejecting `createFile`. -/
def novelFailEnv : SfsEnv :=
  { baseEnv with getFileByHash := fun _ => none, createFile := fun _ => .error () }

/-- The record `fi0` with stored size 0 (an empty-file record) living at a
different logical path, so a second metadata record will be attempted. -/
def fiZero : sfsFile := { fi0 with size := 0, path := "/other" }

/-- Environment `baseEnv` but the store returns the size-0 record `fiZero` for hash `H`. -/
def zeroSizeEnv : SfsEnv :=
  { baseEnv with getFileByHash := fun h => if h == "H" then some fiZero else none }

/-- Options asking for the logical path `/docs` (different from `fi0.path`). -/
def optsDocs : SaveOptions := { filePath := some "/docs", id := none, additionalData := [] }

/-- Options whose additional data collides with the core field `hash`. -/
def optsEvil : SaveOptions :=
  { filePath := some "/docs", id := none, additionalData := [("hash", .str "EVIL")] }

/-- The record literal `saveFile baseEnv [] file0 optsEvil` hands to
`createFile`: the nine computed core bindings followed by the colliding
additional-data binding. -/
def evilFD : List (String × Val) :=
  [("id", .str "UID"), ("name", .str "a.txt"), ("extension", .str ".txt"),
   ("hash", .str "H"), ("size", .num 5), ("type", .str "document"),
   ("last_modified", .num 100), ("path", .str "/docs"), ("publishedAt", .num 100)] ++
  [("hash", .str "EVIL")]

/-! Theorems. -/

theorem replaceFirstL_append (p s : List Char) : replaceFirstL (p ++ s) p [] = s := by
  have hpre : p.isPrefixOf (p ++ s) = true :=
    List.isPrefixOf_iff_prefix.mpr (List.prefix_append p s)
  unfold replaceFirstL
  simp [hpre]

theorem jsReplaceFirst_append (p s : String) : jsReplaceFirst (p ++ s) p "" = s := by
  show String.mk (replaceFirstL (p ++ s).data p.data "".data) = s
  rw [String.data_append]
  show String.mk (replaceFirstL (p.data ++ s.data) p.data []) = s
  rw [replaceFirstL_append]

/-- C4: for every id I, `urlToId (idToUrl I) = I`, whether or not the mask
ends with a trailing slash (the first occurrence of the mask-plus-separator
in the built URL is always its prefix, so JS `replace` strips exactly it). -/
theorem urlToId_idToUrl (mask id : String) : urlToId mask (idToUrl mask id) = id := by
  unfold urlToId idToUrl
  cases h : endsWithSlash mask <;> simp [h, jsReplaceFirst_append]

/-- C8: for a mask `m` not ending in the separator, `idToUrl` under `m` and
under `m ++ "/"` both produce `m ++ "/" ++ id`: exactly one separator
between mask and id, never doubled and never missing. -/
theorem idToUrl_single_separator (m id : String) (h : endsWithSlash m = false) :
    idToUrl m id = m ++ "/" ++ id ∧ idToUrl (m ++ "/") id = m ++ "/" ++ id := by
  have h2 : endsWithSlash (m ++ "/") = true := by
    unfold endsWithSlash
    rw [String.data_append]
    show (List.getLast? (m.data ++ ['/']) == some '/') = true
    rw [List.getLast?_concat]
    rfl
  constructor
  · unfold idToUrl
    rw [if_neg (by simp [h])]
  · unfold idToUrl
    rw [if_pos h2]

/-- Closed witness for the C8 theorem at a concrete mask and id. -/
theorem idToUrl_single_separator_witness :
    endsWithSlash "https://cdn.x/files" = false ∧
    (idToUrl "https://cdn.x/files" "abc" = "https://cdn.x/files" ++ "/" ++ "abc" ∧
     idToUrl ("https://cdn.x/files" ++ "/") "abc" = "https://cdn.x/files" ++ "/" ++ "abc") :=
  ⟨by decide, idToUrl_single_separator "https://cdn.x/files" "abc" (by decide)⟩

/-- C7: when no directory entry has name-stem equal to the hash,
`deleteFileByHash` fails with the NotFound error and the directory is
unchanged; when some entry matches, the first matching entry is unlinked
and the operation succeeds. -/
theorem deleteFileByHash_spec (p : String) (dir : List String) (hash : String) :
    ((∀ f ∈ dir, stem f ≠ hash) →
      deleteFileByHash p dir hash =
        { result := .error ("File with hash " ++ hash ++ " not found in " ++ p),
          dir := dir }) ∧
    (∀ f, dir.find? (fun g => stem g == hash) = some f →
      f ∈ dir ∧ stem f = hash ∧
      deleteFileByHash p dir hash = { result := .ok (), dir := dir.erase f }) := by
  constructor
  · intro h
    have hf : dir.find? (fun f => stem f == hash) = none := by
      apply List.find?_eq_none.mpr
      intro x hx
      simpa using h x hx
    unfold deleteFileByHash
    rw [hf]
  · intro f hf
    refine ⟨List.mem_of_find?_eq_some hf, by simpa using List.find?_some hf, ?_⟩
    unfold deleteFileByHash
    rw [hf]

/-- Closed witness for the C7 theorem: a miss on hash "ZZ" and a hit on
hash "Hx" over the directory listing `["Hx.txt"]`. -/
theorem deleteFileByHash_spec_witness :
    ((∀ f ∈ ["Hx.txt"], stem f ≠ "ZZ") ∧
      deleteFileByHash "pub" ["Hx.txt"] "ZZ" =
        { result := .error ("File with hash " ++ "ZZ" ++ " not found in " ++ "pub"),
          dir := ["Hx.txt"] }) ∧
    (["Hx.txt"].find? (fun g => stem g == "Hx") = some "Hx.txt" ∧
      ("Hx.txt" ∈ ["Hx.txt"] ∧ stem "Hx.txt" = "Hx" ∧
        deleteFileByHash "pub" ["Hx.txt"] "Hx" =
          { result := .ok (), dir := List.erase ["Hx.txt"] "Hx.txt" })) :=
  ⟨⟨by decide, (deleteFileByHash_spec "pub" ["Hx.txt"] "ZZ").1 (by decide)⟩,
   ⟨by decide, (deleteFileByHash_spec "pub" ["Hx.txt"] "Hx").2 "Hx.txt" (by decide)⟩⟩

/-- C3: whenever `getFileByHash` returns an existing record for the
computed hash, `file.mv` is never invoked in that call. -/
theorem saveFile_no_mv_when_hash_exists (env : SfsEnv) (disk : Disk)
    (file : UploadedFile) (opts : SaveOptions) (fi : sfsFile)
    (h : env.getFileByHash (env.hashFn file.data) = some fi) :
    (saveFile env disk file opts).mvCalled = false := by
  simp only [saveFile, h]
  split
  · split
    · rfl
    · split <;> rfl
  · rfl

/-- Closed witness for the C3 theorem: the store already knows hash `H`,
so `file.mv` is skipped. -/
theorem saveFile_no_mv_when_hash_exists_witness :
    baseEnv.getFileByHash (baseEnv.hashFn file0.data) = some fi0 ∧
    (saveFile baseEnv [] file0 opts0).mvCalled = false :=
  ⟨rfl, saveFile_no_mv_when_hash_exists baseEnv [] file0 opts0 fi0 rfl⟩

/-- C2: when the store already has a record for the hash, at the same
logical path, and duplicates are disallowed, `saveFile` writes nothing to
disk, never calls `createFile`, and returns the existing record decorated
with its `idToUrl` URL. -/
theorem saveFile_dedup_same_path (env : SfsEnv) (disk : Disk) (file : UploadedFile)
    (opts : SaveOptions) (fi : sfsFile)
    (h : env.getFileByHash (env.hashFn file.data) = some fi)
    (hp : fi.path = defaultFilePath opts.filePath)
    (hd : env.allowDuplicates = false) :
    saveFile env disk file opts =
      { result := .ok (some { fi with
          url := some (idToUrl env.mask (valToString fi.id)) }),
        disk := disk, mvCalled := false, statCalled := false, created := none } := by
  simp [saveFile, h, hd, hp]

/-- Closed witness for the C2 theorem: a second upload of the bytes behind
`fi0` at the same logical path is a no-op returning `fi0` with its URL. -/
theorem saveFile_dedup_same_path_witness :
    baseEnv.getFileByHash (baseEnv.hashFn file0.data) = some fi0 ∧
    fi0.path = defaultFilePath opts0.filePath ∧
    baseEnv.allowDuplicates = false ∧
    saveFile baseEnv [("pub/H.txt", 5)] file0 opts0 =
      { result := .ok (some { fi0 with
          url := some (idToUrl baseEnv.mask (valToString fi0.id)) }),
        disk := [("pub/H.txt", 5)], mvCalled := false, statCalled := false,
        created := none } :=
  ⟨rfl, rfl, rfl,
   saveFile_dedup_same_path baseEnv [("pub/H.txt", 5)] file0 opts0 fi0 rfl rfl rfl⟩

/-- C5: when the content is not novel (the store has a record for the
hash), the disk is left entirely unchanged, in particular when
`createFile` throws: the pre-existing physical file is never deleted on
behalf of another record's failure. -/
theorem saveFile_disk_unchanged_when_not_novel (env : SfsEnv) (disk : Disk)
    (file : UploadedFile) (opts : SaveOptions) (fi : sfsFile)
    (h : env.getFileByHash (env.hashFn file.data) = some fi)
    (hc : ∀ fd, env.createFile fd = Except.error ()) :
    (saveFile env disk file opts).disk = disk := by
  simp only [saveFile, h]
  split
  · split
    · rfl
    · rw [hc]
      simp
  · rfl

/-- Closed witness for the C5 theorem: `createFile` rejects while the
physical file for hash `H` already exists; the disk keeps it. -/
theorem saveFile_disk_unchanged_when_not_novel_witness :
    failEnv.getFileByHash (failEnv.hashFn file0.data) = some fi0 ∧
    (∀ fd, failEnv.createFile fd = Except.error ()) ∧
    (saveFile failEnv [("pub/H.txt", 5)] file0 optsDocs).disk = [("pub/H.txt", 5)] :=
  ⟨rfl, fun _ => rfl,
   saveFile_disk_unchanged_when_not_novel failEnv [("pub/H.txt", 5)] file0 optsDocs fi0
     rfl (fun _ => rfl)⟩

/-- C10: a falsy caller-supplied id (the number 0 or the empty string) is
replaced by the generated uid, and an empty-string logical path is
replaced by the root marker, by the default-value lines of `saveFile`. -/
theorem defaults_replace_falsy (u : Val) :
    defaultId (some (Val.num 0)) u = u ∧ defaultId (some (Val.str "")) u = u ∧
    defaultFilePath (some "") = "/" :=
  ⟨rfl, rfl, rfl⟩

/-- Closed witness for the C10 theorem at a concrete uid value. -/
theorem defaults_replace_falsy_witness :
    defaultId (some (Val.num 0)) (Val.str "UID") = Val.str "UID" ∧
    defaultId (some (Val.str "")) (Val.str "UID") = Val.str "UID" ∧
    defaultFilePath (some "") = "/" :=
  defaults_replace_falsy (Val.str "UID")

/-- C1: on a novel-content upload whose `createFile` rejects, the
just-written physical file IS removed, but the inner catch never rethrows:
`saveFile` resolves with `undefined` (here `.ok none`) instead of
rejecting. This contradicts the claim (and the function's own JSDoc
`@throws`), exhibited at a concrete input. -/
theorem saveFile_createError_swallowed :
    novelFailEnv.getFileByHash (novelFailEnv.hashFn file0.data) = none ∧
    (saveFile novelFailEnv [] file0 opts0).mvCalled = true ∧
    diskLookup (saveFile novelFailEnv [] file0 opts0).disk
      (pathJoin "pub" ("H" ++ ".txt")) = none ∧
    (saveFile novelFailEnv [] file0 opts0).result = Except.ok none :=
  ⟨rfl, rfl, rfl, rfl⟩

/-- C6 counterexample: the store's record for hash `H` has stored size 0
(falsy in JS), so `fileInfo?.size || fs.statSync(constPath).size` falls
through to the disk: `statSync` runs and the size placed into the new
record is the physical file's size 7, not the existing record's 0. -/
theorem saveFile_size_not_reused_counterexample :
    zeroSizeEnv.getFileByHash (zeroSizeEnv.hashFn file0.data) = some fiZero ∧
    fiZero.size = 0 ∧
    (saveFile zeroSizeEnv [("pub/H.txt", 7)] file0 opts0).statCalled = true ∧
    (saveFile zeroSizeEnv [("pub/H.txt", 7)] file0 opts0).created.map
      (fun fd => jsObjGet fd "size") = some (some (.num 7)) :=
  ⟨rfl, rfl, rfl, rfl⟩

/-- C6 as amended: when the existing record's `size` and `type` are truthy
(size nonzero, type nonempty), the record handed to `createFile` carries
exactly those stored values and `fs.statSync` is never consulted. -/
theorem saveFile_size_type_reused_when_truthy (env : SfsEnv) (disk : Disk)
    (file : UploadedFile) (opts : SaveOptions) (fi : sfsFile)
    (h : env.getFileByHash (env.hashFn file.data) = some fi)
    (hs : fi.size ≠ 0) (ht : fi.type ≠ "")
    (hb : (defaultFilePath opts.filePath != fi.path || env.allowDuplicates) = true) :
    ∃ fd, (saveFile env disk file opts).created = some fd ∧
      ("size", Val.num fi.size) ∈ fd ∧ ("type", Val.str fi.type) ∈ fd ∧
      (saveFile env disk file opts).statCalled = false := by
  have hj : ∀ (d : Disk) (p : String), jsOrSize (some fi.size) d p = some (fi.size, false) := by
    intro d p
    unfold jsOrSize
    simp [hs]
  simp only [saveFile, h, Option.isNone_some, Option.map_some', Bool.false_or, hb,
    if_true, hj]
  split
  · refine ⟨_, rfl, ?_, ?_, rfl⟩ <;> simp [ht]
  · refine ⟨_, rfl, ?_, ?_, rfl⟩ <;> simp [ht]

/-- Closed witness for the amended C6 theorem: `fi0` has truthy size 5 and
type `document`; both are copied into the created record and statSync is
not called. -/
theorem saveFile_size_type_reused_when_truthy_witness :
    baseEnv.getFileByHash (baseEnv.hashFn file0.data) = some fi0 ∧
    fi0.size ≠ 0 ∧ fi0.type ≠ "" ∧
    (defaultFilePath optsDocs.filePath != fi0.path || baseEnv.allowDuplicates) = true ∧
    (∃ fd, (saveFile baseEnv [] file0 optsDocs).created = some fd ∧
      ("size", Val.num fi0.size) ∈ fd ∧ ("type", Val.str fi0.type) ∈ fd ∧
      (saveFile baseEnv [] file0 optsDocs).statCalled = false) :=
  ⟨rfl, by decide, by decide, by decide,
   saveFile_size_type_reused_when_truthy baseEnv [] file0 optsDocs fi0 rfl
     (by decide) (by decide) (by decide)⟩

theorem jsObjGet_append_right (a b : List (String × Val)) (k : String) (v : Val)
    (h : jsObjGet b k = some v) : jsObjGet (a ++ b) k = some v := by
  unfold jsObjGet at h ⊢
  rw [List.reverse_append, List.find?_append]
  cases hb : List.find? (fun e => e.1 == k) b.reverse with
  | none => rw [hb] at h; simp at h
  | some e =>
      rw [hb] at h
      simp only [Option.map_some', Option.some.injEq] at h
      simp [h]

/-- C9: a caller-supplied `additionalData` binding for any key (in
particular one colliding with a computed core field) is spread last into
the record literal, so the record handed to `createFile` carries the
additional-data value for that key. -/
theorem saveFile_additionalData_overrides (env : SfsEnv) (disk : Disk)
    (file : UploadedFile) (opts : SaveOptions) (fd : List (String × Val))
    (k : String) (v : Val)
    (hcr : (saveFile env disk file opts).created = some fd)
    (hk : jsObjGet opts.additionalData k = some v) :
    jsObjGet fd k = some v := by
  simp only [saveFile] at hcr
  split at hcr
  · split at hcr
    · simp at hcr
    · split at hcr <;>
      · simp only [Option.some.injEq] at hcr
        subst hcr
        exact jsObjGet_append_right _ _ _ _ hk
  · split at hcr <;> simp at hcr

/-- Closed witness for the C9 theorem: additional data rebinding `hash` to
`EVIL` wins over the computed hash `H` in the created record. -/
theorem saveFile_additionalData_overrides_witness :
    (saveFile baseEnv [] file0 optsEvil).created = some evilFD ∧
    jsObjGet optsEvil.additionalData "hash" = some (.str "EVIL") ∧
    jsObjGet evilFD "hash" = some (.str "EVIL") :=
  ⟨rfl, rfl,
   saveFile_additionalData_overrides baseEnv [] file0 optsEvil evilFD "hash"
     (.str "EVIL") rfl rfl⟩

end Sfs
